import Mathlib

/-!
Shallow embedding of the RHiD-Discord repository (apps/discord-bot/main.py and
apps/rhid_runner/automator.py) together with proofs about the claims of its
specification.  Wall-clock times are modelled as rationals (Python floats),
Discord user ids as naturals, and the throttle map `recent` as a total function
defaulting to 0 (Python `recent.get(user_id, 0)` on the initially empty dict).
-/

namespace RHiD

/-- Python `int(q)` on a real number: truncation toward zero
(floor for non-negative arguments, ceiling for negative ones). -/
def pyInt (q : ℚ) : ℤ := if 0 ≤ q then ⌊q⌋ else -⌊-q⌋

/-- The outcome record assembled by `run_rhid_punch` (automator.py lines 586-617),
restricted to the fields the claims are about: the result text, the mode label
and the trigger-source tag placed in the embed footer (`Trigger: {trigger}`). -/
structure Payload where
  resultado : String
  modo : String
  trigger : String
  deriving Repr, DecidableEq

/-- A response sent back to the Discord user by a handler in main.py:
the throttle message `Aguarde {n}s para tentar novamente.` (carrying its
computed seconds value), a success embed built from the automator payload,
or the error message `❌ Erro: {e}`. -/
inductive BotResponse where
  | waitMsg (seconds : ℤ)
  | resultEmbed (p : Payload)
  | errorMsg (msg : String)
  deriving Repr, DecidableEq

/-- Trigger tag passed by the button handler `PunchView.punch`
(main.py line 251: `trigger="button"`). -/
def buttonTriggerTag : String := "button"

/-- Trigger tag passed by the slash-command handler `baterponto`
(main.py line 299: `trigger="slash"`). -/
def slashTriggerTag : String := "slash"

/-- Default trigger tag of `run_rhid_punch` (automator.py line 566:
`trigger: str = "manual"`). -/
def defaultTriggerTag : String := "manual"

/-- The button handler `PunchView.punch` (main.py lines 236-261).
State passed in: the per-user `recent` map and the press time `now`;
`W` is `RATE_LIMIT_SECONDS`; `runRes` is the outcome of the automation run
(the run itself is executed under the global lock, modelled separately).
Returns the response, the new `recent` map, and whether a run was started.
The code rejects when `now - last < RATE_LIMIT_SECONDS` with
`int(RATE_LIMIT_SECONDS - (now - last))` seconds and returns without touching
`recent`; otherwise it stores `recent[user_id] = now` before deferring and
running the automation. -/
def punch_button_handler (W : ℚ) (recent : ℕ → ℚ) (u : ℕ) (now : ℚ)
    (runRes : Except String Payload) : BotResponse × (ℕ → ℚ) × Bool :=
  let last := recent u
  if now - last < W then
    (BotResponse.waitMsg (pyInt (W - (now - last))), recent, false)
  else
    let recent' := Function.update recent u now
    match runRes with
    | Except.ok p => (BotResponse.resultEmbed p, recent', true)
    | Except.error e => (BotResponse.errorMsg e, recent', true)

/-- The slash-command handler `baterponto` (main.py lines 294-309).
It defers, acquires the global lock and runs the automation; it performs no
access to `recent` and no throttle check at all, so the map is returned
unchanged and a run is always started. -/
def baterponto_handler (_W : ℚ) (recent : ℕ → ℚ) (_u : ℕ) (_now : ℚ)
    (runRes : Except String Payload) : BotResponse × (ℕ → ℚ) × Bool :=
  match runRes with
  | Except.ok p => (BotResponse.resultEmbed p, recent, true)
  | Except.error e => (BotResponse.errorMsg e, recent, true)

/-!
The global `automation_lock` (main.py line 35, an `asyncio.Lock`) serializes
the automation runs of both handlers: each handler wraps its whole run in
`async with automation_lock`.  We model the cooperative scheduler as a
transition system over the set of in-flight handler invocations (tasks):
a pending task may acquire the lock only when nobody holds it (an
`asyncio.Lock` suspends a second acquirer until release — there is no failing
or rejecting acquire transition), and the holding task releases it only when
its run is finished.
-/

/-- Phase of one handler invocation with respect to `automation_lock`:
not yet past the `async with` (pending), inside it running the automation
(running), or completed (finished). -/
inductive TaskPhase where
  | pending | running | finished
  deriving Repr, DecidableEq

/-- State of the bot process: the phase of each of the `n` in-flight handler
invocations and the current holder of `automation_lock` (none when free). -/
structure LockSys (n : ℕ) where
  phase : Fin n → TaskPhase
  holder : Option (Fin n)

/-- One scheduler step: a pending task acquires the free lock and starts its
run, or a running task finishes its run and releases the lock.  There is no
transition that drops or rejects a pending task. -/
inductive LockStep {n : ℕ} : LockSys n → LockSys n → Prop where
  | acquire (s : LockSys n) (i : Fin n)
      (hp : s.phase i = TaskPhase.pending) (hl : s.holder = none) :
      LockStep s ⟨Function.update s.phase i TaskPhase.running, some i⟩
  | release (s : LockSys n) (i : Fin n)
      (hp : s.phase i = TaskPhase.running) (hl : s.holder = some i) :
      LockStep s ⟨Function.update s.phase i TaskPhase.finished, none⟩

/-- Start state: all triggers pending, lock free. -/
def lockInit (n : ℕ) : LockSys n := ⟨fun _ => TaskPhase.pending, none⟩

/-- States reachable from the start state under any interleaving. -/
inductive LockReach {n : ℕ} : LockSys n → Prop where
  | start : LockReach (lockInit n)
  | step {s t : LockSys n} : LockReach s → LockStep s t → LockReach t

/-!
apps/rhid_runner/automator.py.  Whitespace collapsing first: `_dump_small_html`
(lines 93-99) computes `" ".join(html.split())[:max_len]` with `max_len = 2000`.
Python `str.split()` with no argument splits on runs of whitespace and drops
leading and trailing whitespace; whitespace is modelled by `Char.isWhitespace`.
-/

/-- Accumulating scanner behind Python `html.split()`: `acc` holds the
(reversed) word being read; whitespace ends the current word, everything
else extends it.  Runs of whitespace produce no empty words. -/
def wordsAux : List Char → List Char → List (List Char)
  | [], acc => if acc.isEmpty then [] else [acc.reverse]
  | c :: cs, acc =>
    if c.isWhitespace then
      if acc.isEmpty then wordsAux cs [] else acc.reverse :: wordsAux cs []
    else wordsAux cs (c :: acc)

/-- Python `s.split()` (no separator argument). -/
def pySplit (s : List Char) : List (List Char) := wordsAux s []

/-- Python `" ".join(ws)`: interleave a single space between the words. -/
def joinSp : List (List Char) → List Char
  | [] => []
  | [w] => w
  | w :: ws => w ++ ' ' :: joinSp ws

/-- `" ".join(html.split())` from `_dump_small_html`. -/
def pyCollapseWs (s : List Char) : List Char := joinSp (pySplit s)

/-- `_dump_small_html(driver, max_len=2000)` (automator.py lines 93-99) applied
to a successfully read page source: collapse whitespace, keep the first 2000
characters. -/
def dump_small_html (html : String) : String :=
  String.mk ((pyCollapseWs html.data).take 2000)

/-- Fallback of `_dump_small_html` when reading the page source raises. -/
def noHtmlFallback : String := "<no html>"

/-- Checker for "no two adjacent whitespace characters". -/
def noWsRun : List Char → Bool
  | [] => true
  | [_] => true
  | a :: b :: rest => (!(a.isWhitespace && b.isWhitespace)) && noWsRun (b :: rest)

/-- Checker for "every whitespace character is a plain space". -/
def wsOnlySpace (l : List Char) : Bool := l.all (fun c => !c.isWhitespace || c == ' ')

/-!
Event-trace semantics of the automation run.  External effects that the claims
talk about are recorded as events; temporary directories are identified by the
order of their `tempfile.mkdtemp` allocation within the run.
-/

/-- Observable side effects of one `run_rhid_punch` invocation. -/
inductive Ev where
  /-- `tempfile.mkdtemp` under `CHROME_USER_DATA_BASE` (`_mktemp_under_base`). -/
  | allocTmp (id : ℕ)
  /-- `shutil.rmtree(d, ignore_errors=True)` attempted on directory `id`. -/
  | freeTmp (id : ℕ)
  /-- `webdriver.Chrome(...)` attempt number `n` started. -/
  | launchAttempt (n : ℕ)
  /-- `webdriver.Chrome(...)` attempt number `n` returned a live session. -/
  | sessionCreated (n : ℕ)
  /-- `time.sleep(0.8)` backoff between launch attempts. -/
  | backoff
  /-- `driver.get(url)`: first page interaction of `_login`. -/
  | loginNav
  /-- The final committing click on the `Registrar Ponto` button. -/
  | finalClick
  /-- `driver.quit()` attempted in the `finally` teardown. -/
  | browserQuit
  deriving Repr, DecidableEq

/-- A live browser session together with the temporary directories recorded on
it (`driver._tmp_dirs`, automator.py line 357). -/
structure Driver where
  tmpDirs : List ℕ
  deriving Repr, DecidableEq

/-- Environment-sourced configuration of the automator (automator.py lines
41-54 and 576-577, main.py line 24). -/
structure Config where
  rhidEmail : String
  rhidPassword : String
  punchDryRun : Bool
  rhidUseUserData : Bool
  /-- `RHID_LOGIN_URL or RHID_URL`; none when neither is set. -/
  loginUrl : Option String
  deriving Repr, DecidableEq

/-- Oracle for everything outside the program: which launch attempts fail with
a session-creation failure, how the portal pages behave, and whether the
best-effort teardown operations fail (their failures are suppressed). -/
structure World where
  /-- attempt `n` of `webdriver.Chrome` raises `SessionNotCreatedException` /
  `WebDriverException`. -/
  launchFails : ℕ → Bool
  /-- the `POST_LOGIN_SELECTOR` probe finds an already-authenticated session. -/
  alreadyLogged : Bool
  /-- locating the login controls, typing the credentials and submitting all
  succeed (failures there raise and abort `_login`). -/
  loginOk : Bool
  /-- the final `Registrar Ponto` button is located before the deadline. -/
  finalBtnFound : Bool
  /-- the final button reaches enabled state before the timeout. -/
  btnEnables : Bool
  /-- `robust_click` (or its re-locate fallback) succeeds. -/
  clickOk : Bool
  /-- `driver.page_source` can be read (otherwise `_dump_small_html` returns
  its fallback). -/
  pageSourceOk : Bool
  /-- content of `driver.page_source`. -/
  pageSource : String
  /-- `driver.quit()` raises (suppressed by the bare except). -/
  quitFails : Bool
  /-- `shutil.rmtree` on directory `id` fails (suppressed by
  `ignore_errors=True` plus the bare except). -/
  rmFails : ℕ → Bool

/-- The set of directories allocated by one launch attempt, numbered from
`ctr`: data path and disk cache always, plus the profile directory when
`RHID_USE_USER_DATA` is set (automator.py lines 343-345), together with the
next free number. -/
def allocSet (useUserData : Bool) (ctr : ℕ) : List ℕ × ℕ :=
  if useUserData then ([ctr, ctr + 1, ctr + 2], ctr + 3) else ([ctr, ctr + 1], ctr + 2)

/-- `_build_driver` (automator.py lines 342-373): allocate the directories,
try to launch; on a session-creation failure clean the directories up,
allocate fresh ones, back off and retry — the loop body runs for attempts 1
and 2 only, so a second failure falls out of the loop and re-raises the last
error.  (The failing second iteration still allocates one more fresh set of
directories before the loop exits; no third attempt uses them.) -/
def build_driver (launchFails : ℕ → Bool) (useUserData : Bool) :
    Except String Driver × List Ev :=
  let (s1, c1) := allocSet useUserData 0
  if launchFails 1 then
    let (s2, c2) := allocSet useUserData c1
    let evs1 := s1.map Ev.allocTmp ++ [Ev.launchAttempt 1] ++ s1.map Ev.freeTmp
        ++ s2.map Ev.allocTmp ++ [Ev.backoff]
    if launchFails 2 then
      let (s3, _) := allocSet useUserData c2
      (Except.error "session not created",
        evs1 ++ [Ev.launchAttempt 2] ++ s2.map Ev.freeTmp ++ s3.map Ev.allocTmp ++ [Ev.backoff])
    else
      (Except.ok ⟨s2⟩, evs1 ++ [Ev.launchAttempt 2, Ev.sessionCreated 2])
  else
    (Except.ok ⟨s1⟩, s1.map Ev.allocTmp ++ [Ev.launchAttempt 1, Ev.sessionCreated 1])

/-- Error message of the missing-credentials check (automator.py line 579). -/
def credsMissingMsg : String :=
  "Credenciais RHID não configuradas (RHID_EMAIL/RHID_PASSWORD)."

/-- Error message of the missing-URL check in `_login` (automator.py line 390). -/
def urlMissingMsg : String :=
  "Defina RHID_URL (ou RHID_LOGIN_URL) no .env para a página de login."

/-- `_login` (automator.py lines 387-419): fail when no login URL is
configured; otherwise navigate, short-circuit when already authenticated, else
locate the controls, type the credentials and submit (abstracted into
`World.loginOk`; each failure there raises).  The post-login confirmation
timeout is a warning only and does not change the outcome. -/
def login (cfg : Config) (w : World) : Except String Unit × List Ev :=
  match cfg.loginUrl with
  | none => (Except.error urlMissingMsg, [])
  | some _ =>
    if w.alreadyLogged then (Except.ok (), [Ev.loginNav])
    else if w.loginOk then (Except.ok (), [Ev.loginNav])
    else (Except.error "login interaction failure", [Ev.loginNav])

/-- The page-content excerpt embedded in the button-not-found error
(automator.py line 488): `html[:800]` of the `_dump_small_html` output,
falling back to `"<no html>"` when the page source cannot be read. -/
def htmlExcerpt (w : World) : String :=
  String.mk (((if w.pageSourceOk then dump_small_html w.pageSource else noHtmlFallback).data).take 800)

/-- Head of the button-not-found error message (automator.py line 488). -/
def btnNotFoundMsgHead : String :=
  "Não encontrei o botão final 'Registrar Ponto'. HTML compacto: "

/-- Error message when the final button never enables (automator.py line 512). -/
def btnNotEnabledMsg : String :=
  "Botão FINAL não habilitou dentro do timeout. Verifique geolocalização/permite GPS."

/-- Result string of the dry-run early return (automator.py line 517). -/
def dryRunResultMsg : String :=
  "DRY RUN: cheguei ao botão final habilitado; clique final não executado."

/-- Result string of the committed clock-in (automator.py line 561). -/
def pontoRegistradoMsg : String := "Ponto registrado."

/-- `_registrar_ponto` (automator.py lines 421-561).  The dashboard click and
the URL wait (lines 432-459) are best-effort and non-fatal either way, and the
confirmation wait (lines 543-559) downgrades to a warning, so neither changes
the outcome; the fatal stages are modelled in order: the final button must be
located before the deadline (else the error carries the page excerpt), must
enable (else the geolocation error), then the dry-run flag short-circuits
before any click, and otherwise the robust click must succeed. -/
def registrar_ponto (dryRun : Bool) (w : World) : Except String String × List Ev :=
  if !w.finalBtnFound then
    (Except.error (btnNotFoundMsgHead ++ htmlExcerpt w), [])
  else if !w.btnEnables then
    (Except.error btnNotEnabledMsg, [])
  else if dryRun then
    (Except.ok dryRunResultMsg, [])
  else if w.clickOk then
    (Except.ok pontoRegistradoMsg, [Ev.finalClick])
  else
    (Except.error "could not click", [])

/-- `_cleanup_tmp_list` (automator.py lines 86-91): every path gets its own
`shutil.rmtree(d, ignore_errors=True)` wrapped in a bare try/except, so a
failing deletion is recorded (second component false) but neither raises nor
stops the deletion attempts on the remaining paths. -/
def cleanup_tmp_list (rmFails : ℕ → Bool) (paths : List ℕ) : List (ℕ × Bool) :=
  paths.map (fun d => (d, !rmFails d))

/-- The `finally` teardown of `run_rhid_punch` (automator.py lines 625-632)
when a driver exists: `driver.quit()` in a bare try/except (attempted even when
it fails), then `_cleanup_tmp_list(driver._tmp_dirs)`. -/
def teardown (w : World) (d : Driver) : List Ev :=
  Ev.browserQuit :: (cleanup_tmp_list w.rmFails d.tmpDirs).map (fun p => Ev.freeTmp p.1)

/-- The body of `run_rhid_punch` between driver construction and teardown
(automator.py lines 576-617): the credentials check, `_login`,
`_registrar_ponto`, then payload assembly. -/
def flow_after_driver (cfg : Config) (w : World) : Except String String × List Ev :=
  if cfg.rhidEmail = "" ∨ cfg.rhidPassword = "" then
    (Except.error credsMissingMsg, [])
  else
    match login cfg w with
    | (Except.error e, evs) => (Except.error e, evs)
    | (Except.ok _, evs) =>
      let r := registrar_ponto cfg.punchDryRun w
      (r.1, evs ++ r.2)

/-- `run_rhid_punch` (automator.py lines 566-632): build the driver (a failure
there propagates wrapped, with no teardown since `driver` is still None), run
the flow, and in all remaining cases — success or failure at any stage — run
the teardown; every error is wrapped into the single user-facing message
`Falha ao registrar ponto: ...`. -/
def run_rhid_punch (cfg : Config) (w : World) (trigger : String) :
    Except String Payload × List Ev :=
  match build_driver w.launchFails cfg.rhidUseUserData with
  | (Except.error e, evs) => (Except.error ("Falha ao registrar ponto: " ++ e), evs)
  | (Except.ok d, evs) =>
    let f := flow_after_driver cfg w
    let trace := evs ++ f.2 ++ teardown w d
    match f.1 with
    | Except.error e => (Except.error ("Falha ao registrar ponto: " ++ e), trace)
    | Except.ok res =>
      (Except.ok
        { resultado := res
          modo := if cfg.punchDryRun then "DRY RUN (simulação)" else "Produção"
          trigger := trigger },
        trace)

/-!
Concrete sample inputs used to evaluate the development on closed instances.
-/

/-- A configuration with the email credential missing. -/
def cfgNoEmail : Config :=
  { rhidEmail := "", rhidPassword := "secret", punchDryRun := false,
    rhidUseUserData := false, loginUrl := some "https://app.rhid.com.br/v2/#/login" }

/-- A fully-populated production configuration. -/
def cfgDemo : Config :=
  { rhidEmail := "user@empresa.com", rhidPassword := "secret", punchDryRun := false,
    rhidUseUserData := false, loginUrl := some "https://app.rhid.com.br/v2/#/login" }

/-- The same configuration with the dry-run flag set. -/
def cfgDry : Config := { cfgDemo with punchDryRun := true }

/-- A world in which every external interaction succeeds. -/
def worldSmooth : World :=
  { launchFails := fun _ => false, alreadyLogged := false, loginOk := true,
    finalBtnFound := true, btnEnables := true, clickOk := true,
    pageSourceOk := true, pageSource := "", quitFails := false,
    rmFails := fun _ => false }

/-- A world in which the final button never appears on a page whose source
holds runs of whitespace. -/
def worldNoBtn : World :=
  { worldSmooth with finalBtnFound := false, pageSource := "x   y\n z" }

/-- Launch oracle failing on the first attempt only. -/
def lfDemo : ℕ → Bool := fun n => n == 1

/-- Throttle state after user 7 had a press accepted at t = 100. -/
def recentDemo : ℕ → ℚ := fun n => if n = 7 then 100 else 0

/-- The payload produced by a successful slash-command run. -/
def payloadDemo : Payload :=
  { resultado := pontoRegistradoMsg, modo := "Produção", trigger := slashTriggerTag }

/-- Two handler invocations in flight, the first one holding the lock. -/
def lockDemo : LockSys 2 :=
  ⟨Function.update (fun _ => TaskPhase.pending) 0 TaskPhase.running, some 0⟩

/-! ### Gatekeeper theorems -/

/-- `pyInt` agrees with rounding down on non-negative arguments. -/
theorem pyInt_eq_floor_of_nonneg {q : ℚ} (h : 0 ≤ q) : pyInt q = ⌊q⌋ := by
  simp [pyInt, h]

/-- C3: a button press strictly within `W` seconds of the user's last accepted
press is rejected with a wait message whose seconds value is the remaining
window rounded down, and no automation run starts; a press at or after `W`
seconds is accepted and starts a run. -/
theorem punch_throttle_window (W : ℚ) (recent : ℕ → ℚ) (u : ℕ) (now : ℚ)
    (runRes : Except String Payload) :
    (now - recent u < W →
      (punch_button_handler W recent u now runRes).1
          = BotResponse.waitMsg ⌊W - (now - recent u)⌋ ∧
      (punch_button_handler W recent u now runRes).2.2 = false) ∧
    (W ≤ now - recent u →
      (punch_button_handler W recent u now runRes).2.2 = true ∧
      ∀ s, (punch_button_handler W recent u now runRes).1 ≠ BotResponse.waitMsg s) := by
  constructor
  · intro h
    have hpos : (0 : ℚ) ≤ W - (now - recent u) := by linarith
    simp [punch_button_handler, h, pyInt_eq_floor_of_nonneg hpos]
  · intro h
    have h' : ¬ now - recent u < W := not_lt.mpr h
    cases runRes <;> simp [punch_button_handler, h']

/-- C3 witness: with a 60-second window and the last accepted press at t = 0,
a retrigger at t = 10 is rejected with a 50-second wait and no run, and a
retrigger at t = 60 is accepted. -/
theorem punch_throttle_window_witness :
    ((10 : ℚ) - (fun _ => (0 : ℚ)) 7 < 60) ∧
    (punch_button_handler 60 (fun _ => 0) 7 10 (Except.error "boom")).1
        = BotResponse.waitMsg 50 ∧
    (punch_button_handler 60 (fun _ => 0) 7 10 (Except.error "boom")).2.2 = false ∧
    ((60 : ℚ) ≤ 60 - (fun _ => (0 : ℚ)) 7) ∧
    (punch_button_handler 60 (fun _ => 0) 7 60 (Except.error "boom")).2.2 = true := by
  have h1 := (punch_throttle_window 60 (fun _ => 0) 7 10 (Except.error "boom")).1 (by norm_num)
  have h2 := (punch_throttle_window 60 (fun _ => 0) 7 60 (Except.error "boom")).2 (by norm_num)
  refine ⟨by norm_num, ?_, h1.2, by norm_num, h2.1⟩
  rw [h1.1]
  norm_num

/-- C10: a rejected press leaves the `recent` map unchanged and starts no run,
while an accepted press stores its own timestamp for the user — whatever the
automation run's later outcome is, including a failure. -/
theorem punch_recent_update (W : ℚ) (recent : ℕ → ℚ) (u : ℕ) (now : ℚ)
    (runRes : Except String Payload) :
    (now - recent u < W →
      (punch_button_handler W recent u now runRes).2.1 = recent ∧
      (punch_button_handler W recent u now runRes).2.2 = false) ∧
    (¬ now - recent u < W →
      (punch_button_handler W recent u now runRes).2.1 = Function.update recent u now) := by
  constructor
  · intro h
    simp [punch_button_handler, h]
  · intro h
    cases runRes <;> simp [punch_button_handler, h]

/-- C10 witness: user 7 was accepted at t = 100 with a 60-second window; a
press at t = 110 is rejected and leaves the stored timestamp at 100, and a
press at t = 200 whose run fails still stores 200. -/
theorem punch_recent_update_witness :
    ((110 : ℚ) - recentDemo 7 < 60) ∧
    (punch_button_handler 60 recentDemo 7 110 (Except.error "boom")).2.1 7 = 100 ∧
    (¬ (200 : ℚ) - recentDemo 7 < 60) ∧
    (punch_button_handler 60 recentDemo 7 200 (Except.error "boom")).2.1 7 = 200 := by
  have h1 := ((punch_recent_update 60 recentDemo 7 110 (Except.error "boom")).1
      (by norm_num [recentDemo])).1
  have h2 := (punch_recent_update 60 recentDemo 7 200 (Except.error "boom")).2
      (by norm_num [recentDemo])
  refine ⟨by norm_num [recentDemo], ?_, by norm_num [recentDemo], ?_⟩
  · rw [congrFun h1 7]; norm_num [recentDemo]
  · rw [congrFun h2 7]; exact Function.update_same 7 200 recentDemo

/-- C4 counterexample: user 7 was accepted at t = 100 and issues the explicit
command at t = 110, well inside the 60-second window — yet the command handler
starts an automation run and answers with the result embed instead of a
"try again" rejection. -/
theorem baterponto_not_throttled_counterexample :
    ((110 : ℚ) - recentDemo 7 < 60) ∧
    (baterponto_handler 60 recentDemo 7 110 (Except.ok payloadDemo)).2.2 = true ∧
    (baterponto_handler 60 recentDemo 7 110 (Except.ok payloadDemo)).1
        = BotResponse.resultEmbed payloadDemo := by
  refine ⟨by norm_num [recentDemo], rfl, rfl⟩

/-- C4 amended: the per-user minimum-interval throttle is enforced only on the
button path — a button press inside the window is rejected with the wait
message and starts no run — while the explicit command performs no throttle
check at all: it always starts a run and never touches the `recent` map. -/
theorem throttle_button_only (W : ℚ) (recent : ℕ → ℚ) (u : ℕ) (now : ℚ)
    (runRes : Except String Payload) :
    (now - recent u < W →
      (punch_button_handler W recent u now runRes).1
          = BotResponse.waitMsg (pyInt (W - (now - recent u))) ∧
      (punch_button_handler W recent u now runRes).2.2 = false) ∧
    (baterponto_handler W recent u now runRes).2.2 = true ∧
    (baterponto_handler W recent u now runRes).2.1 = recent := by
  refine ⟨fun h => by simp [punch_button_handler, h], ?_, ?_⟩ <;>
    cases runRes <;> rfl

/-- C4 amended witness: at t = 110 with the last accepted press at t = 100,
the button press is rejected while the command still runs. -/
theorem throttle_button_only_witness :
    ((110 : ℚ) - recentDemo 7 < 60) ∧
    (punch_button_handler 60 recentDemo 7 110 (Except.ok payloadDemo)).2.2 = false ∧
    (baterponto_handler 60 recentDemo 7 110 (Except.ok payloadDemo)).2.2 = true := by
  have h := throttle_button_only 60 recentDemo 7 110 (Except.ok payloadDemo)
  exact ⟨by norm_num [recentDemo], (h.1 (by norm_num [recentDemo])).2, h.2.1⟩

/-- Auxiliary: the payload built by a successful `run_rhid_punch` carries the
trigger argument verbatim. -/
theorem run_ok_trigger (cfg : Config) (w : World) (t : String) (p : Payload)
    (h : (run_rhid_punch cfg w t).1 = Except.ok p) : p.trigger = t := by
  unfold run_rhid_punch at h
  rcases hb : build_driver w.launchFails cfg.rhidUseUserData with ⟨r, evs⟩
  rw [hb] at h
  cases r with
  | error e => simp at h
  | ok d =>
    rcases hf : (flow_after_driver cfg w).1 with e | res <;> simp [hf] at h
    rw [← h]

/-- C8 counterexample: a successful run triggered by the explicit command
carries the tag `"slash"` in its result payload — a value outside the claimed
set, and in particular not `"command"`. -/
theorem slash_trigger_counterexample :
    (run_rhid_punch cfgDemo worldSmooth slashTriggerTag).1 = Except.ok payloadDemo ∧
    payloadDemo.trigger ≠ "command" ∧
    payloadDemo.trigger ≠ "button" ∧
    payloadDemo.trigger ≠ "manual" := by
  refine ⟨?_, by decide, by decide, by decide⟩
  rfl

/-- C8 amended: the trigger tags used by the three invocation paths are
exactly `"button"` (interactive control press), `"slash"` (direct command —
not `"command"`) and `"manual"` (default), and a successful run's payload
carries the invoking path's tag verbatim. -/
theorem trigger_tags (cfg : Config) (w : World) :
    buttonTriggerTag = "button" ∧ slashTriggerTag = "slash" ∧
    defaultTriggerTag = "manual" ∧
    (∀ p, (run_rhid_punch cfg w buttonTriggerTag).1 = Except.ok p → p.trigger = "button") ∧
    (∀ p, (run_rhid_punch cfg w slashTriggerTag).1 = Except.ok p → p.trigger = "slash") ∧
    (∀ p, (run_rhid_punch cfg w defaultTriggerTag).1 = Except.ok p → p.trigger = "manual") :=
  ⟨rfl, rfl, rfl,
    fun p h => run_ok_trigger cfg w buttonTriggerTag p h,
    fun p h => run_ok_trigger cfg w slashTriggerTag p h,
    fun p h => run_ok_trigger cfg w defaultTriggerTag p h⟩

/-- C8 amended witness: the demo command run succeeds and its payload tag is
`"slash"`. -/
theorem trigger_tags_witness :
    (run_rhid_punch cfgDemo worldSmooth slashTriggerTag).1 = Except.ok payloadDemo ∧
    payloadDemo.trigger = "slash" :=
  ⟨rfl, (trigger_tags cfgDemo worldSmooth).2.2.2.2.1 payloadDemo rfl⟩

/-! ### Mutual-exclusion theorems -/

/-- Invariant of the lock system: a task is running exactly when it holds
`automation_lock`. -/
theorem lock_running_iff_holder {n : ℕ} {s : LockSys n} (h : LockReach s) :
    ∀ i, s.phase i = TaskPhase.running ↔ s.holder = some i := by
  induction h with
  | start => intro i; simp [lockInit]
  | step hr hs ih =>
    cases hs with
    | acquire i hp hl =>
      intro j
      dsimp only
      by_cases hij : j = i
      · subst hij
        simp [Function.update_same]
      · rw [Function.update_noteq hij, ih j, hl]
        constructor
        · intro hj; exact Option.noConfusion hj
        · intro hj; exact absurd (Option.some.inj hj).symm hij
    | release i hp hl =>
      intro j
      dsimp only
      constructor
      · intro hj
        by_cases hij : j = i
        · subst hij
          rw [Function.update_same] at hj
          exact TaskPhase.noConfusion hj
        · rw [Function.update_noteq hij] at hj
          have h2 := (ih j).mp hj
          rw [hl] at h2
          exact absurd (Option.some.inj h2).symm hij
      · intro hj
        exact Option.noConfusion hj

/-- C5: in every reachable state of the bot, at most one handler invocation is
inside its automation run; a running invocation is exactly the holder of
`automation_lock` (held for the run's full duration); and an invocation that
is still pending while the lock is held is not rejected — after the holder's
release step it can take an acquire step and run. -/
theorem automation_lock_mutex (n : ℕ) (s : LockSys n) (h : LockReach s) :
    (∀ i j, s.phase i = TaskPhase.running → s.phase j = TaskPhase.running → i = j) ∧
    (∀ i, s.phase i = TaskPhase.running ↔ s.holder = some i) ∧
    (∀ i j, s.holder = some j → s.phase i = TaskPhase.pending →
      ∃ t u, LockStep s t ∧ LockStep t u ∧
        u.phase i = TaskPhase.running ∧ u.holder = some i) := by
  have inv := lock_running_iff_holder h
  refine ⟨?_, inv, ?_⟩
  · intro i j hi hj
    have h1 := (inv i).mp hi
    have h2 := (inv j).mp hj
    rw [h1] at h2
    exact Option.some.inj h2
  · intro i j hj hp
    have hjr : s.phase j = TaskPhase.running := (inv j).mpr hj
    have hij : i ≠ j := by
      intro he
      rw [he, hjr] at hp
      exact TaskPhase.noConfusion hp
    have hpi : (Function.update s.phase j TaskPhase.finished) i = TaskPhase.pending := by
      rw [Function.update_noteq hij]
      exact hp
    refine ⟨⟨Function.update s.phase j TaskPhase.finished, none⟩,
      ⟨Function.update (Function.update s.phase j TaskPhase.finished) i TaskPhase.running, some i⟩,
      LockStep.release s j hjr hj,
      LockStep.acquire ⟨Function.update s.phase j TaskPhase.finished, none⟩ i hpi rfl,
      ?_, rfl⟩
    simp [Function.update_same]

/-- C5 witness: with two in-flight invocations and the first one holding the
lock, the reached state satisfies the theorem; in particular the holder is
task 0. -/
theorem automation_lock_mutex_witness :
    LockReach lockDemo ∧ lockDemo.holder = some 0 := by
  have hreach : LockReach lockDemo :=
    LockReach.step LockReach.start (LockStep.acquire (lockInit 2) 0 rfl rfl)
  have hphase : lockDemo.phase 0 = TaskPhase.running := by
    simp [lockDemo, Function.update_same]
  exact ⟨hreach, ((automation_lock_mutex 2 lockDemo hreach).2.1 0).mp hphase⟩

/-! ### Automator helper lemmas -/

/-- Unfolding `build_driver` when the first launch attempt succeeds. -/
theorem build_ok1 (lf : ℕ → Bool) (u : Bool) (h1 : lf 1 = false) :
    build_driver lf u = (Except.ok ⟨(allocSet u 0).1⟩,
      (allocSet u 0).1.map Ev.allocTmp ++ [Ev.launchAttempt 1, Ev.sessionCreated 1]) := by
  rcases hA : allocSet u 0 with ⟨s1, c1⟩
  simp [build_driver, h1, hA]

/-- Unfolding `build_driver` when the first attempt fails and the retry
succeeds. -/
theorem build_ok2 (lf : ℕ → Bool) (u : Bool) (h1 : lf 1 = true) (h2 : lf 2 = false) :
    build_driver lf u = (Except.ok ⟨(allocSet u (allocSet u 0).2).1⟩,
      ((allocSet u 0).1.map Ev.allocTmp ++ [Ev.launchAttempt 1]
          ++ (allocSet u 0).1.map Ev.freeTmp
          ++ (allocSet u (allocSet u 0).2).1.map Ev.allocTmp ++ [Ev.backoff])
        ++ [Ev.launchAttempt 2, Ev.sessionCreated 2]) := by
  rcases hA : allocSet u 0 with ⟨s1, c1⟩
  rcases hB : allocSet u c1 with ⟨s2, c2⟩
  simp [build_driver, h1, h2, hA, hB]

/-- Unfolding `build_driver` when both launch attempts fail. -/
theorem build_err (lf : ℕ → Bool) (u : Bool) (h1 : lf 1 = true) (h2 : lf 2 = true) :
    build_driver lf u = (Except.error "session not created",
      ((allocSet u 0).1.map Ev.allocTmp ++ [Ev.launchAttempt 1]
          ++ (allocSet u 0).1.map Ev.freeTmp
          ++ (allocSet u (allocSet u 0).2).1.map Ev.allocTmp ++ [Ev.backoff])
        ++ [Ev.launchAttempt 2] ++ (allocSet u (allocSet u 0).2).1.map Ev.freeTmp
        ++ (allocSet u (allocSet u (allocSet u 0).2).2).1.map Ev.allocTmp ++ [Ev.backoff]) := by
  rcases hA : allocSet u 0 with ⟨s1, c1⟩
  rcases hB : allocSet u c1 with ⟨s2, c2⟩
  rcases hC : allocSet u c2 with ⟨s3, c3⟩
  simp [build_driver, h1, h2, hA, hB, hC]

/-- Unfolding `run_rhid_punch` once the driver build is known to succeed. -/
theorem run_unfold_ok (cfg : Config) (w : World) (trigger : String) (d : Driver)
    (evs : List Ev)
    (hb : build_driver w.launchFails cfg.rhidUseUserData = (Except.ok d, evs)) :
    run_rhid_punch cfg w trigger =
      ((match (flow_after_driver cfg w).1 with
        | Except.error e => Except.error ("Falha ao registrar ponto: " ++ e)
        | Except.ok res => Except.ok
            { resultado := res
              modo := if cfg.punchDryRun then "DRY RUN (simulação)" else "Produção"
              trigger := trigger }),
       evs ++ (flow_after_driver cfg w).2 ++ teardown w d) := by
  unfold run_rhid_punch
  rw [hb]
  rcases hf : (flow_after_driver cfg w).1 with e | res <;> simp [hf]

/-- Unfolding `run_rhid_punch` when the driver build fails. -/
theorem run_unfold_err (cfg : Config) (w : World) (trigger : String) (e : String)
    (evs : List Ev)
    (hb : build_driver w.launchFails cfg.rhidUseUserData = (Except.error e, evs)) :
    run_rhid_punch cfg w trigger
      = (Except.error ("Falha ao registrar ponto: " ++ e), evs) := by
  unfold run_rhid_punch
  rw [hb]

/-- The flow body short-circuits on missing credentials before any page
interaction. -/
theorem flow_creds_missing (cfg : Config) (w : World)
    (hcred : cfg.rhidEmail = "" ∨ cfg.rhidPassword = "") :
    flow_after_driver cfg w = (Except.error credsMissingMsg, []) := by
  unfold flow_after_driver
  rw [if_pos hcred]

/-- The teardown emits the quit event plus exactly one deletion attempt per
recorded directory, whatever the deletion-failure oracle says. -/
theorem teardown_events (w : World) (d : Driver) :
    teardown w d = Ev.browserQuit :: d.tmpDirs.map Ev.freeTmp := by
  simp [teardown, cleanup_tmp_list, List.map_map]

/-- `_login` emits at most its navigation event. -/
theorem login_events (cfg : Config) (w : World) :
    (login cfg w).2 = [] ∨ (login cfg w).2 = [Ev.loginNav] := by
  unfold login
  rcases cfg.loginUrl with _ | u
  · exact Or.inl rfl
  · dsimp only
    split_ifs <;> exact Or.inr rfl

/-- `_registrar_ponto` emits at most the final click event. -/
theorem registrar_events (dr : Bool) (w : World) :
    (registrar_ponto dr w).2 = [] ∨ (registrar_ponto dr w).2 = [Ev.finalClick] := by
  unfold registrar_ponto
  split_ifs <;> simp

/-- With the dry-run flag set, `_registrar_ponto` performs no click at all. -/
theorem registrar_dry_events (w : World) : (registrar_ponto true w).2 = [] := by
  unfold registrar_ponto
  split_ifs <;> simp_all

/-- The flow body only ever emits the login navigation and the final click. -/
theorem flow_events_sub (cfg : Config) (w : World) :
    ∀ e ∈ (flow_after_driver cfg w).2, e = Ev.loginNav ∨ e = Ev.finalClick := by
  unfold flow_after_driver
  by_cases hc : cfg.rhidEmail = "" ∨ cfg.rhidPassword = ""
  · rw [if_pos hc]; simp
  · rw [if_neg hc]
    rcases hl : login cfg w with ⟨r, evs⟩
    have hevs := login_events cfg w
    rw [hl] at hevs
    simp only [Prod.snd] at hevs
    have hreg := registrar_events cfg.punchDryRun w
    cases r with
    | error e =>
      dsimp only
      rcases hevs with h | h <;> simp [h]
    | ok a =>
      dsimp only
      intro e he
      rcases List.mem_append.mp he with he | he
      · rcases hevs with h | h <;> (rw [h] at he; simp at he; try simp [he])
      · rcases hreg with h | h <;> (rw [h] at he; simp at he; try simp [he])

/-- With the dry-run flag set, the flow body never emits the final click. -/
theorem flow_dry_no_click (cfg : Config) (w : World) (hdry : cfg.punchDryRun = true) :
    Ev.finalClick ∉ (flow_after_driver cfg w).2 := by
  unfold flow_after_driver
  by_cases hc : cfg.rhidEmail = "" ∨ cfg.rhidPassword = ""
  · rw [if_pos hc]; simp
  · rw [if_neg hc]
    rcases hl : login cfg w with ⟨r, evs⟩
    have hevs := login_events cfg w
    rw [hl] at hevs
    simp only [Prod.snd] at hevs
    cases r with
    | error e =>
      dsimp only
      rcases hevs with h | h <;> simp [h]
    | ok a =>
      dsimp only
      rw [hdry, registrar_dry_events w]
      rcases hevs with h | h <;> simp [h]

/-- Driver construction never clicks anything. -/
theorem build_no_click (lf : ℕ → Bool) (u : Bool) :
    Ev.finalClick ∉ (build_driver lf u).2 := by
  cases h1 : lf 1 with
  | false => rw [build_ok1 lf u h1]; cases u <;> simp [allocSet]
  | true =>
    cases h2 : lf 2 with
    | false => rw [build_ok2 lf u h1 h2]; cases u <;> simp [allocSet]
    | true => rw [build_err lf u h1 h2]; cases u <;> simp [allocSet]

/-- Driver construction fails only when both launch attempts fail. -/
theorem build_error_cases (lf : ℕ → Bool) (u : Bool) (e : String)
    (hb : (build_driver lf u).1 = Except.error e) : lf 1 = true ∧ lf 2 = true := by
  cases h1 : lf 1 with
  | false => rw [build_ok1 lf u h1] at hb; simp at hb
  | true =>
    cases h2 : lf 2 with
    | false => rw [build_ok2 lf u h1 h2] at hb; simp at hb
    | true => exact ⟨rfl, rfl⟩

/-- When both attempts fail, no session was ever created. -/
theorem build_err_no_session (lf : ℕ → Bool) (u : Bool) (h1 : lf 1 = true)
    (h2 : lf 2 = true) : ∀ n, Ev.sessionCreated n ∉ (build_driver lf u).2 := by
  rw [build_err lf u h1 h2]
  cases u <;> simp [allocSet]

/-- Every directory allocated during a successful driver construction is
either already deleted within it (a failed first attempt) or recorded on the
returned driver for the teardown. -/
theorem build_alloc_free (lf : ℕ → Bool) (u : Bool) (d : Driver)
    (hb : (build_driver lf u).1 = Except.ok d) :
    ∀ id, Ev.allocTmp id ∈ (build_driver lf u).2 →
      Ev.freeTmp id ∈ (build_driver lf u).2 ∨ id ∈ d.tmpDirs := by
  cases h1 : lf 1 with
  | false =>
    rw [build_ok1 lf u h1] at hb ⊢
    simp only [Except.ok.injEq] at hb
    subst hb
    intro id hid
    cases u <;> simp_all [allocSet]
  | true =>
    cases h2 : lf 2 with
    | false =>
      rw [build_ok2 lf u h1 h2] at hb ⊢
      simp only [Except.ok.injEq] at hb
      subst hb
      intro id hid
      cases u <;> simp_all [allocSet] <;> omega
    | true =>
      rw [build_err lf u h1 h2] at hb
      simp at hb

/-! ### Claim theorems about `run_rhid_punch` -/

/-- C1 counterexample: with `RHID_EMAIL` empty and a smoothly launching
browser, `run_rhid_punch` does raise the configuration error — but the trace
already holds a session creation and a temporary-directory allocation, so the
error did not come before them. -/
theorem creds_check_counterexample :
    (run_rhid_punch cfgNoEmail worldSmooth "button").1
        = Except.error ("Falha ao registrar ponto: " ++ credsMissingMsg) ∧
    Ev.sessionCreated 1 ∈ (run_rhid_punch cfgNoEmail worldSmooth "button").2 ∧
    Ev.allocTmp 0 ∈ (run_rhid_punch cfgNoEmail worldSmooth "button").2 := by
  refine ⟨rfl, ?_, ?_⟩ <;> decide

/-- C1 corrected: with a missing credential, `run_rhid_punch` raises the
configuration error — but only after the browser session has been created
(temporary directories allocated and launch succeeded); the error does come
before any login navigation or click, and the session is then torn down. -/
theorem creds_error_after_session (cfg : Config) (w : World) (trigger : String)
    (hcred : cfg.rhidEmail = "" ∨ cfg.rhidPassword = "")
    (hL : w.launchFails 1 = false ∨ w.launchFails 2 = false) :
    (run_rhid_punch cfg w trigger).1
        = Except.error ("Falha ao registrar ponto: " ++ credsMissingMsg) ∧
    (∃ n, Ev.sessionCreated n ∈ (run_rhid_punch cfg w trigger).2) ∧
    Ev.loginNav ∉ (run_rhid_punch cfg w trigger).2 ∧
    Ev.finalClick ∉ (run_rhid_punch cfg w trigger).2 ∧
    Ev.browserQuit ∈ (run_rhid_punch cfg w trigger).2 := by
  have hflow := flow_creds_missing cfg w hcred
  cases h1 : w.launchFails 1 with
  | false =>
    rw [run_unfold_ok cfg w trigger _ _ (build_ok1 w.launchFails cfg.rhidUseUserData h1),
      hflow, teardown_events]
    refine ⟨rfl, ⟨1, ?_⟩, ?_, ?_, ?_⟩ <;>
      cases cfg.rhidUseUserData <;> simp [allocSet]
  | true =>
    have h2 : w.launchFails 2 = false := by
      rcases hL with hL | hL
      · rw [h1] at hL; exact absurd hL (by simp)
      · exact hL
    rw [run_unfold_ok cfg w trigger _ _ (build_ok2 w.launchFails cfg.rhidUseUserData h1 h2),
      hflow, teardown_events]
    refine ⟨rfl, ⟨2, ?_⟩, ?_, ?_, ?_⟩ <;>
      cases cfg.rhidUseUserData <;> simp [allocSet]

/-- C1 corrected witness: the concrete missing-email run. -/
theorem creds_error_after_session_witness :
    (cfgNoEmail.rhidEmail = "" ∨ cfgNoEmail.rhidPassword = "") ∧
    (worldSmooth.launchFails 1 = false ∨ worldSmooth.launchFails 2 = false) ∧
    (run_rhid_punch cfgNoEmail worldSmooth "button").1
        = Except.error ("Falha ao registrar ponto: " ++ credsMissingMsg) ∧
    Ev.loginNav ∉ (run_rhid_punch cfgNoEmail worldSmooth "button").2 := by
  have h := creds_error_after_session cfgNoEmail worldSmooth "button"
    (Or.inl rfl) (Or.inl rfl)
  exact ⟨Or.inl rfl, Or.inl rfl, h.1, h.2.2.1⟩

/-- C2: with the dry-run flag set, no invocation of `run_rhid_punch` ever
emits the final click, and whenever the flow reaches the enabled final
control, `_registrar_ponto` returns the non-committal dry-run success text
without performing any click action. -/
theorem dry_run_never_clicks (cfg : Config) (w : World) (trigger : String)
    (hdry : cfg.punchDryRun = true) :
    Ev.finalClick ∉ (run_rhid_punch cfg w trigger).2 ∧
    (w.finalBtnFound = true → w.btnEnables = true →
      registrar_ponto cfg.punchDryRun w = (Except.ok dryRunResultMsg, [])) := by
  constructor
  · rcases hb : build_driver w.launchFails cfg.rhidUseUserData with ⟨r, evs⟩
    have hbk := build_no_click w.launchFails cfg.rhidUseUserData
    rw [hb] at hbk
    cases r with
    | error e =>
      rw [run_unfold_err cfg w trigger e evs hb]
      simpa using hbk
    | ok d =>
      rw [run_unfold_ok cfg w trigger d evs hb]
      intro hmem
      rcases List.mem_append.mp hmem with hmem | hmem
      · rcases List.mem_append.mp hmem with hmem | hmem
        · exact hbk (by simpa using hmem)
        · exact flow_dry_no_click cfg w hdry hmem
      · rw [teardown_events] at hmem
        simp at hmem
  · intro hf hben
    rw [hdry]
    unfold registrar_ponto
    rw [hf, hben]
    rfl

/-- C2 witness: the demo dry-run configuration in the all-go world clicks
nothing and reports the dry-run text. -/
theorem dry_run_never_clicks_witness :
    cfgDry.punchDryRun = true ∧
    Ev.finalClick ∉ (run_rhid_punch cfgDry worldSmooth "button").2 ∧
    registrar_ponto cfgDry.punchDryRun worldSmooth = (Except.ok dryRunResultMsg, []) := by
  have h := dry_run_never_clicks cfgDry worldSmooth "button" rfl
  exact ⟨rfl, h.1, h.2 rfl rfl⟩

/-- C7: on a session-creation failure `_build_driver` deletes the directories
of the failed attempt, allocates fresh (disjoint) ones, backs off and retries
exactly once; a second failure propagates as the fatal session error with no
session ever created and no third attempt; and a first-attempt success
performs no retry at all. -/
theorem build_retry_once (lf : ℕ → Bool) (u : Bool) :
    (lf 1 = false →
      (build_driver lf u).1 = Except.ok ⟨(allocSet u 0).1⟩ ∧
      Ev.launchAttempt 2 ∉ (build_driver lf u).2 ∧
      Ev.backoff ∉ (build_driver lf u).2) ∧
    (lf 1 = true → lf 2 = false →
      (∀ id ∈ (allocSet u 0).1, Ev.freeTmp id ∈ (build_driver lf u).2) ∧
      Ev.backoff ∈ (build_driver lf u).2 ∧
      (build_driver lf u).1 = Except.ok ⟨(allocSet u (allocSet u 0).2).1⟩ ∧
      (∀ id ∈ (allocSet u (allocSet u 0).2).1, id ∉ (allocSet u 0).1)) ∧
    (lf 1 = true → lf 2 = true →
      (build_driver lf u).1 = Except.error "session not created" ∧
      (∀ n, Ev.sessionCreated n ∉ (build_driver lf u).2) ∧
      (∀ k, Ev.launchAttempt k ∈ (build_driver lf u).2 → k = 1 ∨ k = 2)) := by
  refine ⟨fun h1 => ?_, fun h1 h2 => ?_, fun h1 h2 => ?_⟩
  · rw [build_ok1 lf u h1]
    cases u <;> simp [allocSet]
  · rw [build_ok2 lf u h1 h2]
    cases u <;> simp [allocSet]
  · refine ⟨(build_err lf u h1 h2 ▸ rfl), build_err_no_session lf u h1 h2, ?_⟩
    rw [build_err lf u h1 h2]
    cases u <;> intro k <;> simp [allocSet]

/-- C7 witness: with a first-attempt failure, the retry succeeds with the
fresh directories 2 and 3, the first pair was deleted, and the backoff ran. -/
theorem build_retry_once_witness :
    lfDemo 1 = true ∧ lfDemo 2 = false ∧
    (build_driver lfDemo false).1 = Except.ok ⟨[2, 3]⟩ ∧
    Ev.backoff ∈ (build_driver lfDemo false).2 ∧
    Ev.freeTmp 0 ∈ (build_driver lfDemo false).2 := by
  have h := (build_retry_once lfDemo false).2.1 rfl rfl
  exact ⟨rfl, rfl, h.2.2.1, h.2.1, h.1 0 (by decide)⟩

/-- C6: on every exit path of `run_rhid_punch` in which a browser session was
created — success, or failure at any later stage — the teardown runs: the
browser quit is attempted and every temporary directory allocated during the
run gets a recursive-deletion attempt (the deletion-failure oracle is free, so
failing deletions are suppressed and change nothing). -/
theorem session_teardown (cfg : Config) (w : World) (trigger : String)
    (hs : ∃ n, Ev.sessionCreated n ∈ (run_rhid_punch cfg w trigger).2) :
    Ev.browserQuit ∈ (run_rhid_punch cfg w trigger).2 ∧
    (∀ id, Ev.allocTmp id ∈ (run_rhid_punch cfg w trigger).2 →
      Ev.freeTmp id ∈ (run_rhid_punch cfg w trigger).2) := by
  rcases hb : build_driver w.launchFails cfg.rhidUseUserData with ⟨r, evs⟩
  cases r with
  | error e =>
    exfalso
    rcases hs with ⟨n, hn⟩
    rw [run_unfold_err cfg w trigger e evs hb] at hn
    have h12 := build_error_cases w.launchFails cfg.rhidUseUserData e (by rw [hb])
    have hno := build_err_no_session w.launchFails cfg.rhidUseUserData h12.1 h12.2 n
    rw [hb] at hno
    exact hno (by simpa using hn)
  | ok d =>
    rw [run_unfold_ok cfg w trigger d evs hb]
    dsimp only
    constructor
    · rw [teardown_events]
      simp
    · intro id hid
      rcases List.mem_append.mp hid with hid | hid
      · rcases List.mem_append.mp hid with hid | hid
        · have halloc := build_alloc_free w.launchFails cfg.rhidUseUserData d
            (by rw [hb]) id (by rw [hb]; exact hid)
          rcases halloc with hfree | hdir
          · rw [hb] at hfree
            exact List.mem_append.mpr (Or.inl (List.mem_append.mpr (Or.inl (by simpa using hfree))))
          · refine List.mem_append.mpr (Or.inr ?_)
            rw [teardown_events]
            exact List.mem_cons_of_mem _ (List.mem_map_of_mem Ev.freeTmp hdir)
        · rcases flow_events_sub cfg w (Ev.allocTmp id) hid with h | h <;> exact Ev.noConfusion h
      · rw [teardown_events] at hid
        simp at hid

/-- C6 witness: the smooth production run creates a session, attempts the
quit and deletes the allocated directory 0. -/
theorem session_teardown_witness :
    Ev.sessionCreated 1 ∈ (run_rhid_punch cfgDemo worldSmooth "manual").2 ∧
    Ev.browserQuit ∈ (run_rhid_punch cfgDemo worldSmooth "manual").2 ∧
    Ev.freeTmp 0 ∈ (run_rhid_punch cfgDemo worldSmooth "manual").2 := by
  have h := session_teardown cfgDemo worldSmooth "manual" ⟨1, by decide⟩
  exact ⟨by decide, h.1, h.2 0 (by decide)⟩

/-! ### Whitespace collapsing (C9) -/

/-- Every word produced by the split scanner is non-empty and free of
whitespace, provided the accumulator already is. -/
theorem wordsAux_good (s : List Char) :
    ∀ acc, acc.all (fun c => !c.isWhitespace) = true →
      ∀ w ∈ wordsAux s acc, w ≠ [] ∧ w.all (fun c => !c.isWhitespace) = true := by
  induction s with
  | nil =>
    intro acc hacc w hw
    simp only [wordsAux] at hw
    by_cases h : acc.isEmpty
    · rw [if_pos h] at hw
      simp at hw
    · rw [if_neg h] at hw
      simp only [List.mem_singleton] at hw
      subst hw
      have hne : acc ≠ [] := by
        intro h0
        rw [h0] at h
        exact h rfl
      refine ⟨by simpa using hne, ?_⟩
      simpa using hacc
  | cons c cs ih =>
    intro acc hacc w hw
    simp only [wordsAux] at hw
    by_cases hws : c.isWhitespace
    · rw [if_pos hws] at hw
      by_cases hacc0 : acc.isEmpty
      · rw [if_pos hacc0] at hw
        exact ih [] rfl w hw
      · rw [if_neg hacc0] at hw
        rcases List.mem_cons.mp hw with h | h
        · subst h
          have hne : acc ≠ [] := by
            intro h0
            rw [h0] at hacc0
            exact hacc0 rfl
          exact ⟨by simpa using hne, by simpa using hacc⟩
        · exact ih [] rfl w h
    · rw [if_neg hws] at hw
      refine ih (c :: acc) ?_ w hw
      rw [List.all_cons, Bool.and_eq_true]
      exact ⟨by simpa using hws, hacc⟩

/-- Characterization of the adjacent-whitespace checker on a cons cell. -/
theorem noWsRun_cons (a : Char) (l : List Char) :
    noWsRun (a :: l) = true ↔
      (noWsRun l = true ∧
        ∀ b, l.head? = some b → (a.isWhitespace && b.isWhitespace) = false) := by
  cases l with
  | nil => simp [noWsRun]
  | cons b t =>
    simp only [noWsRun, Bool.and_eq_true, Bool.not_eq_true', List.head?_cons]
    constructor
    · rintro ⟨h1, h2⟩
      exact ⟨h2, fun x hx => by injection hx with hx; rw [← hx]; exact h1⟩
    · rintro ⟨h1, h2⟩
      exact ⟨h2 b rfl, h1⟩

/-- A whitespace-free list has no adjacent whitespace. -/
theorem noWsRun_of_all (w : List Char) (hw : w.all (fun c => !c.isWhitespace) = true) :
    noWsRun w = true := by
  induction w with
  | nil => rfl
  | cons a t ih =>
    rw [List.all_cons, Bool.and_eq_true] at hw
    rw [noWsRun_cons]
    refine ⟨ih hw.2, fun b _ => ?_⟩
    have ha : a.isWhitespace = false := by simpa using hw.1
    rw [ha]
    rfl

/-- Prepending a whitespace-free word preserves the adjacency check. -/
theorem noWsRun_append (w l : List Char) (hw : w.all (fun c => !c.isWhitespace) = true)
    (hl : noWsRun l = true) : noWsRun (w ++ l) = true := by
  induction w with
  | nil => simpa using hl
  | cons a t ih =>
    rw [List.all_cons, Bool.and_eq_true] at hw
    rw [List.cons_append, noWsRun_cons]
    refine ⟨ih hw.2, fun b _ => ?_⟩
    have ha : a.isWhitespace = false := by simpa using hw.1
    rw [ha]
    rfl

/-- A whitespace-free list trivially has only plain spaces as whitespace. -/
theorem wsOnlySpace_of_all (w : List Char)
    (hw : w.all (fun c => !c.isWhitespace) = true) : wsOnlySpace w = true := by
  unfold wsOnlySpace
  rw [List.all_eq_true] at hw ⊢
  intro c hc
  have hc2 : c.isWhitespace = false := by simpa using hw c hc
  rw [hc2]
  rfl

/-- Joining two plain-spaces-only lists with a single space stays
plain-spaces-only. -/
theorem wsOnlySpace_append_sp (w l : List Char) (hw : wsOnlySpace w = true)
    (hl : wsOnlySpace l = true) : wsOnlySpace (w ++ ' ' :: l) = true := by
  unfold wsOnlySpace at *
  rw [List.all_append, List.all_cons, hw, hl]
  decide

/-- Joining non-empty whitespace-free words with single spaces yields a
collapsed list: no adjacent whitespace, only plain spaces, and a
non-whitespace first character. -/
theorem joinSp_props (ws : List (List Char))
    (h : ∀ w ∈ ws, w ≠ [] ∧ w.all (fun c => !c.isWhitespace) = true) :
    noWsRun (joinSp ws) = true ∧ wsOnlySpace (joinSp ws) = true ∧
      ∀ b, (joinSp ws).head? = some b → b.isWhitespace = false := by
  induction ws with
  | nil => exact ⟨rfl, rfl, by simp [joinSp]⟩
  | cons w rest ih =>
    cases rest with
    | nil =>
      have hw := h w (by simp)
      refine ⟨noWsRun_of_all w hw.2, wsOnlySpace_of_all w hw.2, ?_⟩
      intro b hb
      have hj : joinSp [w] = w := rfl
      rw [hj] at hb
      have hbm : b ∈ w := by
        cases w with
        | nil => simp at hb
        | cons x t =>
          rw [List.head?_cons] at hb
          injection hb with hb
          rw [← hb]
          simp
      have hall := hw.2
      rw [List.all_eq_true] at hall
      simpa using hall b hbm
    | cons w2 rest2 =>
      have hw := h w (by simp)
      have hrest := ih (fun x hx => h x (List.mem_cons_of_mem w hx))
      have hjoin : joinSp (w :: w2 :: rest2) = w ++ ' ' :: joinSp (w2 :: rest2) := rfl
      rw [hjoin]
      refine ⟨?_, ?_, ?_⟩
      · refine noWsRun_append w _ hw.2 ?_
        rw [noWsRun_cons]
        refine ⟨hrest.1, fun b hb => ?_⟩
        rw [hrest.2.2 b hb]
        rfl
      · exact wsOnlySpace_append_sp w _ (wsOnlySpace_of_all w hw.2) hrest.2.1
      · intro b hb
        cases hcw : w with
        | nil => exact absurd hcw hw.1
        | cons x t =>
          rw [hcw, List.cons_append, List.head?_cons] at hb
          injection hb with hb
          have hx : x ∈ w := by rw [hcw]; simp
          have hall := hw.2
          rw [List.all_eq_true] at hall
          rw [← hb]
          simpa using hall x hx

/-- A prefix of a list without adjacent whitespace has none either. -/
theorem noWsRun_take (l : List Char) :
    ∀ n, noWsRun l = true → noWsRun (l.take n) = true := by
  induction l with
  | nil =>
    intro n h
    simpa using h
  | cons a t ih =>
    intro n h
    cases n with
    | zero => rfl
    | succ m =>
      rw [List.take_succ_cons]
      rw [noWsRun_cons] at h ⊢
      refine ⟨ih m h.1, ?_⟩
      intro b hb
      apply h.2
      cases t with
      | nil => simp at hb
      | cons x xs =>
        cases m with
        | zero => simp at hb
        | succ k =>
          rw [List.take_succ_cons, List.head?_cons] at hb
          rw [List.head?_cons]
          exact hb

/-- A prefix of a plain-spaces-only list is plain-spaces-only. -/
theorem wsOnlySpace_take (l : List Char) (n : ℕ) (h : wsOnlySpace l = true) :
    wsOnlySpace (l.take n) = true := by
  unfold wsOnlySpace at *
  rw [List.all_eq_true] at *
  intro c hc
  exact h c (List.take_subset n l hc)

/-- `_dump_small_html` output is whitespace-collapsed and at most 2000
characters long, for every page source. -/
theorem dump_small_html_props (html : String) :
    noWsRun (dump_small_html html).data = true ∧
    wsOnlySpace (dump_small_html html).data = true ∧
    (dump_small_html html).length ≤ 2000 := by
  have h := joinSp_props (pySplit html.data) (wordsAux_good html.data [] rfl)
  refine ⟨noWsRun_take _ 2000 h.1, wsOnlySpace_take _ 2000 h.2.1, ?_⟩
  show ((pyCollapseWs html.data).take 2000).length ≤ 2000
  rw [List.length_take]
  exact min_le_left _ _

/-- C9: when the final control is never found by the deadline, the fatal
error detail is the fixed message head followed by a page-content excerpt
that — for every possible page source — is whitespace-collapsed (no adjacent
whitespace, only plain spaces) and at most 2000 characters long. -/
theorem final_btn_error_excerpt (dr : Bool) (w : World)
    (hf : w.finalBtnFound = false) :
    (registrar_ponto dr w).1 = Except.error (btnNotFoundMsgHead ++ htmlExcerpt w) ∧
    noWsRun (htmlExcerpt w).data = true ∧
    wsOnlySpace (htmlExcerpt w).data = true ∧
    (htmlExcerpt w).length ≤ 2000 := by
  have hdata : (htmlExcerpt w).data
      = ((if w.pageSourceOk then dump_small_html w.pageSource else noHtmlFallback).data).take 800 :=
    rfl
  refine ⟨?_, ?_, ?_, ?_⟩
  · unfold registrar_ponto
    rw [hf]
    rfl
  · rw [hdata]
    by_cases hok : w.pageSourceOk
    · rw [if_pos hok]
      exact noWsRun_take _ 800 (dump_small_html_props w.pageSource).1
    · rw [if_neg hok]
      decide
  · rw [hdata]
    by_cases hok : w.pageSourceOk
    · rw [if_pos hok]
      exact wsOnlySpace_take _ 800 (dump_small_html_props w.pageSource).2.1
    · rw [if_neg hok]
      decide
  · show (htmlExcerpt w).data.length ≤ 2000
    rw [hdata, List.length_take]
    exact le_trans (min_le_left _ _) (by norm_num)

/-- C9 witness: a page source with whitespace runs yields the collapsed
excerpt `x y z` inside the concrete error value. -/
theorem final_btn_error_excerpt_witness :
    worldNoBtn.finalBtnFound = false ∧
    (registrar_ponto false worldNoBtn).1
        = Except.error (btnNotFoundMsgHead ++ htmlExcerpt worldNoBtn) ∧
    noWsRun (htmlExcerpt worldNoBtn).data = true ∧
    (htmlExcerpt worldNoBtn).length ≤ 2000 := by
  have h := final_btn_error_excerpt false worldNoBtn rfl
  exact ⟨rfl, h.1, h.2.1, h.2.2.2⟩

end RHiD
